import Mathlib

/-!
Verification model of the homework status bot (`homework.py`, `exceptions.py`).

The repository polls a remote homework-review API, validates the JSON body,
translates homework statuses to fixed Russian sentences, and forwards them to a
chat.  Errors are wrapped, deduplicated within a 5000-second window, collected
in a module-level backlog (`error_messages`) and re-sent by a drain pass that
runs in the loop's `finally` block before sleeping.

Shallow embedding conventions:
* Python values appearing in API responses are modelled by `PyVal`.
* Python exceptions raised by the program are modelled by `PyErr`; fallible
  functions return `Except PyErr _`.
* The outcome of the external HTTP GET is abstracted into `HttpOutcome`
  (transport failure, or a response with a status code and a JSON-decode
  result); `requests.Response.raise_for_status` raises `requests.HTTPError`
  (a `RequestException`) exactly for status codes in `[400, 600)`.
* The chat transport is abstracted per message text by `sendOk : String → Bool`
  for the loop-level model (the normal contract of `send_message`), and by the
  richer `SendOutcome` for the model of `send_message` itself, whose
  `try/except ApiTelegramException` absorbs only that exception type.
* The `for error_message in error_messages: ... error_messages.remove(...)`
  drain loop is modelled index-based, matching CPython list-iterator semantics:
  the iterator keeps an integer position into the (mutating) list, and
  `list.remove(x)` deletes the first element equal to `x`.
* The module `constants` is not part of the provided sources; its message
  texts are opaque placeholder strings (no claim depends on their values).
-/

/-- Python values that can appear in a decoded JSON body. -/
inductive PyVal where
  | none
  | bool (b : Bool)
  | int (n : Int)
  | str (s : String)
  | list (xs : List PyVal)
  | dict (entries : List (String × PyVal))

/-- Python exceptions raised by the program's own code paths. -/
inductive PyErr where
  | apiError (msg : String)
  | notAvailableEndPoint (msg : String)
  | typeError (msg : String)
  | keyError (msg : String)
  | valueError (msg : String)

/-- The `error_message` string the raising component logged and appended to the
backlog (the constructor argument of every raise site). -/
def PyErr.msg : PyErr → String
  | .apiError m => m
  | .notAvailableEndPoint m => m
  | .typeError m => m
  | .keyError m => m
  | .valueError m => m

/-- Python `str(exception)`: the message itself, except that `str` of a
`KeyError` is the `repr` of its argument, i.e. the message wrapped in single
quotes. -/
def PyErr.toText : PyErr → String
  | .apiError m => m
  | .notAvailableEndPoint m => m
  | .typeError m => m
  | .keyError m => "'" ++ m ++ "'"
  | .valueError m => m

/-- Modelled from the spec: `constants.py` is not among the provided source
files; the message texts imported from it are opaque placeholders.  No claim
depends on their concrete values. -/
def api_is_not_dict : String := "api_is_not_dict"

def empty_api_keys : String := "empty_api_keys"

def empty_hmwrks_keys : String := "empty_hmwrks_keys"

def not_doc_status : String := "not_doc_status"

def hmwrks_is_not_list : String := "hmwrks_is_not_list"

def error_api_request : String := "error_api_request"

def endpoint_is_not_available : String := "endpoint_is_not_available"

def error_api_to_json : String := "error_api_to_json"

/-- `HOMEWORK_VERDICTS` from `homework.py`. -/
def HOMEWORK_VERDICTS : List (String × String) :=
  [("approved", "Работа проверена: ревьюеру всё понравилось. Ура!"),
   ("reviewing", "Работа взята на проверку ревьюером."),
   ("rejected", "Работа проверена: у ревьюера есть замечания.")]

/-- `RETRY_PERIOD_ERROR_TIME` from `main` (seconds). -/
def RETRY_PERIOD_ERROR_TIME : Int := 5000

/-- Python `str()` as used in f-string interpolation; containers are
abstracted (no claim renders them). -/
def pyToString : PyVal → String
  | .none => "None"
  | .bool b => if b then "True" else "False"
  | .int n => toString n
  | .str s => s
  | .list _ => "<list>"
  | .dict _ => "<dict>"

/-- Key lookup in a Python dict value (Python dict keys are unique, so
first-match lookup is exact). -/
def dictLookup (v : PyVal) (key : String) : Option PyVal :=
  match v with
  | .dict es => es.lookup key
  | _ => Option.none

/-- Outcome of the external `requests.get` call issued by `get_api_answer`:
either the library raises a `RequestException` (connection error, timeout, …),
or a response arrives carrying an HTTP status code and a JSON-decode result
(`Except.error` models `response.json()` raising `ValueError`). -/
inductive HttpOutcome where
  | transportError (desc : String)
  | response (status : Nat) (body : Except String PyVal)

/-- Text of the `requests.HTTPError` raised by `raise_for_status` (its exact
wording is library-internal; only the status matters to any claim). -/
def httpErrorText (status : Nat) : String :=
  toString status ++ " Client/Server Error"

/-- `get_api_answer` from `homework.py`: `raise_for_status()` raises
`requests.HTTPError ⊆ RequestException` for every status in `[400, 600)`, and
that raise is caught by the surrounding `except requests.RequestException`
clause, which re-raises `ApiErrorException`; only a response that survives
`raise_for_status` reaches the explicit `status_code != HTTPStatus.OK` check
that raises `NotAvailableEndPointException`.  A JSON decode failure raises
`ApiErrorException`.  On every failure the raised error's message is also
logged and appended to the backlog (the append is performed by the caller
model `runTry` via `PyErr.msg`). -/
def get_api_answer (outcome : HttpOutcome) : Except PyErr PyVal :=
  match outcome with
  | .transportError e =>
      .error (.apiError (error_api_request ++ " " ++ e))
  | .response status body =>
      if 400 ≤ status ∧ status < 600 then
        .error (.apiError (error_api_request ++ " " ++ httpErrorText status))
      else if status ≠ 200 then
        .error (.notAvailableEndPoint (endpoint_is_not_available ++ toString status))
      else
        match body with
        | .ok v => .ok v
        | .error e => .error (.apiError (error_api_to_json ++ e))

/-- `check_response` from `homework.py`: raises `TypeError` if the response is
not a dict, `KeyError` if `homeworks` or `current_date` is missing,
`TypeError` if `homeworks` is not a list, and otherwise returns the response
unchanged. -/
def check_response (response : PyVal) : Except PyErr PyVal :=
  match response with
  | .dict entries =>
      if (entries.lookup "homeworks").isNone || (entries.lookup "current_date").isNone then
        .error (.keyError empty_api_keys)
      else
        match entries.lookup "homeworks" with
        | some (.list _) => .ok response
        | _ => .error (.typeError hmwrks_is_not_list)
  | _ => .error (.typeError api_is_not_dict)

/-- `parse_status` from `homework.py`: raises `KeyError` when `homework_name`
or `status` is missing, `ValueError` when the status is not a key of
`HOMEWORK_VERDICTS`, and otherwise returns the fixed-format sentence.  A
non-dict argument raises in Python as well (a `TypeError` from the `in`
operator or the subscript); the exact non-dict exception text is abstracted. -/
def parse_status (homework : PyVal) : Except PyErr String :=
  match homework with
  | .dict entries =>
      if (entries.lookup "homework_name").isNone || (entries.lookup "status").isNone then
        .error (.keyError empty_hmwrks_keys)
      else
        let name := (entries.lookup "homework_name").getD PyVal.none
        let status := (entries.lookup "status").getD PyVal.none
        match status with
        | .str s =>
            match HOMEWORK_VERDICTS.lookup s with
            | some verdict =>
                .ok ("Изменился статус проверки работы \"" ++ pyToString name ++ "\". " ++ verdict)
            | Option.none =>
                .error (.valueError (not_doc_status ++ " " ++ pyToString status))
        | other => .error (.valueError (not_doc_status ++ " " ++ pyToString other))
  | _ => .error (.typeError "argument is not iterable")

/-- Outcome of one `bot.send_message` call: delivered, the Telegram API raised
`ApiTelegramException`, or the transport raised an exception of another type
(e.g. a `requests` connection error — the loop's own drain pass guards against
exactly this with its `except Exception` clause, lines 222–226). -/
inductive SendOutcome where
  | delivered
  | apiTelegramError (desc : String)
  | otherError (desc : String)

/-- `send_message` from `homework.py`: returns `True` on delivery, catches
`ApiTelegramException` and returns `False`; any other exception from
`bot.send_message` is not caught and propagates to the caller. -/
def send_message (outcome : SendOutcome) : Except String Bool :=
  match outcome with
  | .delivered => .ok true
  | .apiTelegramError _ => .ok false
  | .otherError e => .error e

/-- Result of the backlog drain pass in `main`'s `finally` block: the backlog
that remains and the entries for which a send was attempted, in order. -/
structure DrainResult where
  backlog : List String
  attempted : List String

/-- The drain pass `for error_message in error_messages: if send_message(...):
error_messages.remove(error_message)`, modelled with CPython list-iterator
semantics: the iterator holds an index `i` into the mutating list; each step
fetches `msgs[i]`, advances `i`, and on a successful send removes the first
occurrence of the fetched value from the list. -/
def drainFrom (send : String → Bool) (msgs : List String) (i : Nat) : DrainResult :=
  if h : i < msgs.length then
    if send msgs[i] then
      let r := drainFrom send (msgs.erase msgs[i]) (i + 1)
      ⟨r.backlog, msgs[i] :: r.attempted⟩
    else
      let r := drainFrom send msgs (i + 1)
      ⟨r.backlog, msgs[i] :: r.attempted⟩
  else ⟨msgs, []⟩
termination_by msgs.length - i
decreasing_by
  · have hm : msgs[i] ∈ msgs := List.getElem_mem h
    have := List.length_erase_of_mem hm
    omega
  · omega

/-- One whole drain pass (iteration starts at index 0). -/
def drain (send : String → Bool) (msgs : List String) : DrainResult :=
  drainFrom send msgs 0

/-- `response["homeworks"]` after a successful `check_response` (always a
list there). -/
def extractHomeworks (resp : PyVal) : List PyVal :=
  match resp with
  | .dict es =>
      match es.lookup "homeworks" with
      | some (.list hws) => hws
      | _ => []
  | _ => []

/-- The `for homework in response["homeworks"]` body: `parse_status` each
record and pass the sentence to `send_message` (whose return value is
ignored there).  Returns the message texts handed to `send_message`, in
order, and the first `parse_status` error if one aborts the loop. -/
def processHomeworks : List PyVal → List String × Option PyErr
  | [] => ([], Option.none)
  | hw :: rest =>
      match parse_status hw with
      | .ok message =>
          let r := processHomeworks rest
          (message :: r.1, r.2)
      | .error e => ([], some e)

/-- The `try` block of one cycle of `main`: fetch, validate, translate and
send each homework.  Returns the cycle's result and the message texts handed
to `send_message` during processing. -/
def runTry (outcome : HttpOutcome) : Except PyErr PyVal × List String :=
  match get_api_answer outcome with
  | .error e => (.error e, [])
  | .ok resp =>
      match check_response resp with
      | .error e => (.error e, [])
      | .ok resp' =>
          let pr := processHomeworks (extractHomeworks resp')
          match pr.2 with
          | some e => (.error e, pr.1)
          | Option.none => (.ok resp', pr.1)

/-- The mutable state of `main` across cycles: the poll timestamp (an `int`
initially, re-assigned from the response), the last successfully sent error
text with its send time, and the module-level `error_messages` backlog. -/
structure BotState where
  timestamp : PyVal
  lastErrorMessage : Option String
  lastErrorTime : Int
  errorMessages : List String

/-- The external inputs of one cycle: the HTTP outcome, the per-text chat
transport behaviour, and `time.time()` at the `except` block. -/
structure CycleEnv where
  outcome : HttpOutcome
  sendOk : String → Bool
  now : Int

/-- The wrapped error text built in `main`'s `except` block,
`f"Сбой в работе программы: {error}"`. -/
def wrapError (e : PyErr) : String :=
  "Сбой в работе программы: " ++ e.toText

/-- The dedup condition of `main`: send directly when the text differs from
the last sent error text or more than `RETRY_PERIOD_ERROR_TIME` seconds have
elapsed since the last error send. -/
def dedupGate (st : BotState) (w : String) (now : Int) : Bool :=
  (st.lastErrorMessage != some w) || (decide (now - st.lastErrorTime > RETRY_PERIOD_ERROR_TIME))

/-- One iteration of `main`'s `while True` body: the `try` block, the
`except Exception` block (append the raising component's message and the
wrapped message to the backlog, then the dedup-gated direct send), and the
`finally` drain pass.  Returns the new state and every message text handed to
`send_message` during the cycle, in order; the texts actually delivered are
those on which `env.sendOk` is `true`. -/
def mainStep (env : CycleEnv) (st : BotState) : BotState × List String :=
  match runTry env.outcome with
  | (Except.ok resp, procSends) =>
      let d := drain env.sendOk st.errorMessages
      (⟨(dictLookup resp "current_date").getD PyVal.none,
        st.lastErrorMessage, st.lastErrorTime, d.backlog⟩,
       procSends ++ d.attempted)
  | (Except.error e, procSends) =>
      let w := wrapError e
      let backlog1 := st.errorMessages ++ [e.msg, w]
      if dedupGate st w env.now then
        if env.sendOk w then
          let d := drain env.sendOk backlog1
          (⟨st.timestamp, some w, env.now, d.backlog⟩, procSends ++ [w] ++ d.attempted)
        else
          let d := drain env.sendOk backlog1
          (⟨st.timestamp, st.lastErrorMessage, st.lastErrorTime, d.backlog⟩,
           procSends ++ [w] ++ d.attempted)
      else
        let d := drain env.sendOk backlog1
        (⟨st.timestamp, st.lastErrorMessage, st.lastErrorTime, d.backlog⟩,
         procSends ++ d.attempted)
/-- C3 (amended): a transport failure raises `ApiErrorException`; a response
whose HTTP status lies in `[400, 600)` is aborted by `raise_for_status` inside
the transport `try` block and therefore also raises `ApiErrorException`; only
a non-OK status outside that range reaches the explicit status check and
raises `NotAvailableEndPointException`; a malformed JSON body on a 200
response raises `ApiErrorException`; a 200 response with a JSON body is
returned as decoded. -/
theorem get_api_answer_error_taxonomy :
    (∀ e, get_api_answer (HttpOutcome.transportError e) =
       Except.error (PyErr.apiError (error_api_request ++ " " ++ e)))
  ∧ (∀ status body, 400 ≤ status → status < 600 →
       get_api_answer (HttpOutcome.response status body) =
         Except.error (PyErr.apiError (error_api_request ++ " " ++ httpErrorText status)))
  ∧ (∀ status body, status < 400 ∨ 600 ≤ status → status ≠ 200 →
       get_api_answer (HttpOutcome.response status body) =
         Except.error (PyErr.notAvailableEndPoint (endpoint_is_not_available ++ toString status)))
  ∧ (∀ e, get_api_answer (HttpOutcome.response 200 (Except.error e)) =
       Except.error (PyErr.apiError (error_api_to_json ++ e)))
  ∧ (∀ v, get_api_answer (HttpOutcome.response 200 (Except.ok v)) = Except.ok v) := by
  refine ⟨fun e => rfl, ?_, ?_, fun e => rfl, fun v => rfl⟩
  · intro status body h1 h2
    simp [get_api_answer, h1, h2]
  · intro status body h1 h2
    have : ¬ (400 ≤ status ∧ status < 600) := by omega
    simp [get_api_answer, this, h2]

/-- C3 counterexample: a non-OK HTTP status (404) is re-raised as
`ApiErrorException` (via `raise_for_status`), not as the
`NotAvailableEndPointException` the claim prescribes for every non-OK
status. -/
theorem get_api_answer_notok_apierror_cex :
    get_api_answer (HttpOutcome.response 404 (Except.ok (PyVal.dict []))) =
        Except.error (PyErr.apiError (error_api_request ++ " " ++ httpErrorText 404))
  ∧ get_api_answer (HttpOutcome.response 404 (Except.ok (PyVal.dict []))) ≠
        Except.error (PyErr.notAvailableEndPoint (endpoint_is_not_available ++ toString 404)) := by
  refine ⟨rfl, ?_⟩
  intro h
  simp [get_api_answer] at h

/-- C5: `check_response` raises a type error on a non-mapping input, a
missing-key error when `homeworks` or `current_date` is absent, a type error
when `homeworks` is not a list, and succeeds otherwise. -/
theorem check_response_validation :
    (∀ r, (∀ es, r ≠ PyVal.dict es) →
       check_response r = Except.error (PyErr.typeError api_is_not_dict))
  ∧ (∀ es, ((es.lookup "homeworks").isNone ∨ (es.lookup "current_date").isNone) →
       check_response (PyVal.dict es) = Except.error (PyErr.keyError empty_api_keys))
  ∧ (∀ es hv, es.lookup "homeworks" = some hv → (es.lookup "current_date").isSome →
       (∀ xs, hv ≠ PyVal.list xs) →
       check_response (PyVal.dict es) = Except.error (PyErr.typeError hmwrks_is_not_list))
  ∧ (∀ es xs, es.lookup "homeworks" = some (PyVal.list xs) → (es.lookup "current_date").isSome →
       check_response (PyVal.dict es) = Except.ok (PyVal.dict es)) := by
  refine ⟨?_, ?_, ?_, ?_⟩
  · intro r hr
    cases r with
    | dict es => exact absurd rfl (hr es)
    | none => rfl
    | bool b => rfl
    | int n => rfl
    | str s => rfl
    | list xs => rfl
  · intro es h
    have h1 : ((es.lookup "homeworks").isNone || (es.lookup "current_date").isNone) = true := by
      rcases h with h | h <;> simp [h]
    simp [check_response, h1]
  · intro es hv hh hc hnl
    obtain ⟨cv, hcv⟩ := Option.isSome_iff_exists.mp hc
    cases hv with
    | list xs => exact absurd rfl (hnl xs)
    | none => simp [check_response, hh, hcv]
    | bool b => simp [check_response, hh, hcv]
    | int n => simp [check_response, hh, hcv]
    | str s => simp [check_response, hh, hcv]
    | dict d => simp [check_response, hh, hcv]
  · intro es xs hh hc
    obtain ⟨cv, hcv⟩ := Option.isSome_iff_exists.mp hc
    simp [check_response, hh, hcv]

/-- C6: `parse_status` raises a missing-key error when `homework_name` or
`status` is absent, an unsupported-value error when the status is not one of
the three known statuses (including non-string statuses), and otherwise
returns exactly the fixed-format sentence embedding the homework name and the
verdict text. -/
theorem parse_status_translation :
    (∀ es, ((es.lookup "homework_name").isNone ∨ (es.lookup "status").isNone) →
       parse_status (PyVal.dict es) = Except.error (PyErr.keyError empty_hmwrks_keys))
  ∧ (∀ es s, (es.lookup "homework_name").isSome → es.lookup "status" = some (PyVal.str s) →
       HOMEWORK_VERDICTS.lookup s = Option.none →
       parse_status (PyVal.dict es) = Except.error (PyErr.valueError (not_doc_status ++ " " ++ s)))
  ∧ (∀ es sv, (es.lookup "homework_name").isSome → es.lookup "status" = some sv →
       (∀ s, sv ≠ PyVal.str s) →
       parse_status (PyVal.dict es) =
         Except.error (PyErr.valueError (not_doc_status ++ " " ++ pyToString sv)))
  ∧ (∀ es nv s verdict, es.lookup "homework_name" = some nv →
       es.lookup "status" = some (PyVal.str s) → HOMEWORK_VERDICTS.lookup s = some verdict →
       parse_status (PyVal.dict es) =
         Except.ok ("Изменился статус проверки работы \"" ++ pyToString nv ++ "\". " ++ verdict)) := by
  refine ⟨?_, ?_, ?_, ?_⟩
  · intro es h
    have h1 : ((es.lookup "homework_name").isNone || (es.lookup "status").isNone) = true := by
      rcases h with h | h <;> simp [h]
    simp [parse_status, h1]
  · intro es s hn hs hv
    obtain ⟨nv, hnv⟩ := Option.isSome_iff_exists.mp hn
    simp [parse_status, hnv, hs, hv, pyToString]
  · intro es sv hn hs hns
    obtain ⟨nv, hnv⟩ := Option.isSome_iff_exists.mp hn
    cases sv with
    | str s => exact absurd rfl (hns s)
    | none => simp [parse_status, hnv, hs]
    | bool b => simp [parse_status, hnv, hs]
    | int n => simp [parse_status, hnv, hs]
    | list xs => simp [parse_status, hnv, hs]
    | dict d => simp [parse_status, hnv, hs]
  · intro es nv s verdict hn hs hv
    simp [parse_status, hn, hs, hv]

/-- C6 witness: the exact sentence for status `approved` and name `hw1`. -/
theorem parse_status_translation_witness :
    parse_status (PyVal.dict [("homework_name", PyVal.str "hw1"),
                              ("status", PyVal.str "approved")]) =
      Except.ok "Изменился статус проверки работы \"hw1\". Работа проверена: ревьюеру всё понравилось. Ура!" := by
  have h := parse_status_translation.2.2.2
    [("homework_name", PyVal.str "hw1"), ("status", PyVal.str "approved")]
    (PyVal.str "hw1") "approved" "Работа проверена: ревьюеру всё понравилось. Ура!" rfl rfl rfl
  exact h

/-- C7 (amended): `send_message` returns `True` on confirmed delivery,
returns `False` when the transport raises `ApiTelegramException`, and lets an
exception of any other type propagate to its caller (only
`ApiTelegramException` is caught). -/
theorem send_message_absorbs_only_api_telegram :
    send_message SendOutcome.delivered = Except.ok true
  ∧ (∀ e, send_message (SendOutcome.apiTelegramError e) = Except.ok false)
  ∧ (∀ e, send_message (SendOutcome.otherError e) = Except.error e) :=
  ⟨rfl, fun _ => rfl, fun _ => rfl⟩

/-- C7 counterexample: a transport-level failure that is not an
`ApiTelegramException` (e.g. a connection error from the underlying HTTP
library) propagates out of `send_message`, so `send_message` does not return
`False` on every transport-level send failure and can raise to its caller. -/
theorem send_message_raises_cex :
    send_message (SendOutcome.otherError "requests.exceptions.ConnectionError") =
      Except.error "requests.exceptions.ConnectionError" := rfl

/-- C8: when `check_response` succeeds it returns its input unchanged, and
applying it again to that result succeeds with the identical structure. -/
theorem check_response_identity_idempotent (r v : PyVal) (h : check_response r = Except.ok v) :
    v = r ∧ check_response v = Except.ok v := by
  have hvr : v = r := by
    cases r with
    | dict es =>
        by_cases h1 : ((es.lookup "homeworks").isNone || (es.lookup "current_date").isNone) = true
        · simp [check_response, h1] at h
        · simp only [check_response, Bool.not_eq_true] at h
          rw [if_neg (by simp [h1])] at h
          split at h
          · exact (Except.ok.inj h).symm
          · exact absurd h (by simp)
    | none => simp [check_response] at h
    | bool b => simp [check_response] at h
    | int n => simp [check_response] at h
    | str s => simp [check_response] at h
    | list xs => simp [check_response] at h
  subst hvr
  exact ⟨rfl, h⟩

/-- C8 witness: pass-through and idempotence at a concrete valid response. -/
theorem check_response_identity_idempotent_witness :
    (PyVal.dict [("homeworks", PyVal.list []), ("current_date", PyVal.int 1700000200)] =
       PyVal.dict [("homeworks", PyVal.list []), ("current_date", PyVal.int 1700000200)])
  ∧ check_response (PyVal.dict [("homeworks", PyVal.list []), ("current_date", PyVal.int 1700000200)]) =
      Except.ok (PyVal.dict [("homeworks", PyVal.list []), ("current_date", PyVal.int 1700000200)]) :=
  check_response_identity_idempotent _ _ rfl

/-- C3 witness: status 503 yields `ApiErrorException`; status 204 (non-OK,
outside the `raise_for_status` range) yields `NotAvailableEndPointException`. -/
theorem get_api_answer_error_taxonomy_witness :
    get_api_answer (HttpOutcome.response 503 (Except.ok (PyVal.dict []))) =
      Except.error (PyErr.apiError (error_api_request ++ " " ++ httpErrorText 503))
  ∧ get_api_answer (HttpOutcome.response 204 (Except.ok (PyVal.dict []))) =
      Except.error (PyErr.notAvailableEndPoint (endpoint_is_not_available ++ toString 204)) :=
  ⟨get_api_answer_error_taxonomy.2.1 503 _ (by omega) (by omega),
   get_api_answer_error_taxonomy.2.2.1 204 _ (Or.inl (by omega)) (by omega)⟩

/-- C5 witness: the four branches of `check_response` at concrete inputs. -/
theorem check_response_validation_witness :
    check_response (PyVal.list []) = Except.error (PyErr.typeError api_is_not_dict)
  ∧ check_response (PyVal.dict [("homeworks", PyVal.list [])]) =
      Except.error (PyErr.keyError empty_api_keys)
  ∧ check_response (PyVal.dict [("homeworks", PyVal.int 3), ("current_date", PyVal.int 5)]) =
      Except.error (PyErr.typeError hmwrks_is_not_list)
  ∧ check_response (PyVal.dict [("homeworks", PyVal.list []), ("current_date", PyVal.int 5)]) =
      Except.ok (PyVal.dict [("homeworks", PyVal.list []), ("current_date", PyVal.int 5)]) := by
  refine ⟨check_response_validation.1 _ ?_, check_response_validation.2.1 _ ?_, check_response_validation.2.2.1 _ (PyVal.int 3) rfl (by simp) ?_,
    check_response_validation.2.2.2 _ [] rfl (by simp)⟩
  · intro es h
    cases h
  · right
    rfl
  · intro xs h
    cases h

/-- C4 counterexample: the update is not monotone — a successful validated
response whose `current_date` (5) is smaller than the stored timestamp (10)
moves the stored timestamp backwards, so "advanced … monotonically" does not
hold of the code. -/
theorem timestamp_not_monotone_cex :
    (mainStep ⟨HttpOutcome.response 200 (Except.ok (PyVal.dict
        [("homeworks", PyVal.list []), ("current_date", PyVal.int 5)])), fun _ => true, 0⟩
      ⟨PyVal.int 10, Option.none, 0, []⟩).1.timestamp = PyVal.int 5 := by
  simp [mainStep, runTry, get_api_answer, check_response, extractHomeworks,
    processHomeworks, dictLookup, drain, drainFrom]
  rfl

/-- C4 (amended): in every cycle whose `try` block raises, the stored
timestamp is unchanged; in every cycle that completes without exception it is
assigned the response's `current_date` value (whatever that value is — the
code enforces no monotonicity). -/
theorem timestamp_update_on_cycle_outcome (env : CycleEnv) (st : BotState) :
    (∀ e ps, runTry env.outcome = (Except.error e, ps) →
       (mainStep env st).1.timestamp = st.timestamp)
  ∧ (∀ resp ps, runTry env.outcome = (Except.ok resp, ps) →
       (mainStep env st).1.timestamp = (dictLookup resp "current_date").getD PyVal.none) := by
  constructor
  · intro e ps h
    simp only [mainStep, h]
    by_cases hg : dedupGate st (wrapError e) env.now <;>
      by_cases hs : env.sendOk (wrapError e) = true <;>
      simp [hg, hs]
  · intro resp ps h
    simp only [mainStep, h]

/-- C4 witness: a failing cycle keeps the timestamp; a successful cycle
assigns `current_date`. -/
theorem timestamp_update_on_cycle_outcome_witness :
    (mainStep ⟨HttpOutcome.transportError "boom", fun _ => true, 0⟩
        ⟨PyVal.int 1700000000, Option.none, 0, []⟩).1.timestamp = PyVal.int 1700000000
  ∧ (mainStep ⟨HttpOutcome.response 200 (Except.ok (PyVal.dict
        [("homeworks", PyVal.list []), ("current_date", PyVal.int 1700000200)])), fun _ => true, 0⟩
        ⟨PyVal.int 1700000000, Option.none, 0, []⟩).1.timestamp = PyVal.int 1700000200 :=
  ⟨(timestamp_update_on_cycle_outcome _ _).1 (PyErr.apiError (error_api_request ++ " " ++ "boom")) [] rfl,
   (timestamp_update_on_cycle_outcome _ _).2 (PyVal.dict [("homeworks", PyVal.list []), ("current_date", PyVal.int 1700000200)])
     [] rfl⟩

/-- Conservation law of one drain pass from any iterator position: for every
text, its multiplicity in the remaining backlog plus the number of successful
deliveries of it equals its initial multiplicity. -/
theorem drainFrom_count (send : String → Bool) (msgs : List String) (i : Nat) (v : String) :
    ((drainFrom send msgs i).backlog.count v)
      + (((drainFrom send msgs i).attempted.filter send).count v) = msgs.count v := by
  induction msgs, i using drainFrom.induct send with
  | case1 msgs i h hsend ih =>
    rw [drainFrom]
    simp only [h, dif_pos, hsend, if_pos, List.filter_cons_of_pos hsend, List.count_cons]
    by_cases hv : v = msgs[i]
    · have hm : v ∈ msgs := hv ▸ List.getElem_mem h
      have hc : 1 ≤ msgs.count v := List.one_le_count_iff.mpr hm
      have he : (msgs.erase v).count v = msgs.count v - 1 := List.count_erase_self v msgs
      rw [← hv] at ih ⊢
      rw [he] at ih
      simp only [beq_self_eq_true, if_pos]
      omega
    · have he : (msgs.erase msgs[i]).count v = msgs.count v :=
        List.count_erase_of_ne hv msgs
      rw [he] at ih
      have hb : (msgs[i] == v) = false :=
        beq_eq_false_iff_ne.mpr (fun hh => hv hh.symm)
      simp only [hb, Bool.false_eq_true, if_false]
      omega
  | case2 msgs i h hsend ih =>
    rw [drainFrom]
    have hb : send msgs[i] = false := by simpa using hsend
    simp only [h, dif_pos, hb, Bool.false_eq_true, if_false, List.filter_cons]
    exact ih
  | case3 msgs i h =>
    rw [drainFrom]
    simp [h]

/-- C2 (amended): the drain pass neither duplicates nor loses entries — for
every text, final backlog multiplicity plus successful deliveries equals the
initial multiplicity (so a successfully sent entry is removed exactly once
and not retried, and a failing entry remains); moreover every entry whose
send fails is still in the backlog after the pass. -/
theorem drain_count_conservation :
    (∀ (send : String → Bool) (msgs : List String) (v : String),
       ((drain send msgs).backlog.count v)
         + (((drain send msgs).attempted.filter send).count v) = msgs.count v)
  ∧ (∀ (send : String → Bool) (msgs : List String) (v : String),
       v ∈ msgs → send v = false → v ∈ (drain send msgs).backlog) := by
  constructor
  · intro send msgs v
    exact drainFrom_count send msgs 0 v
  · intro send msgs v hm hs
    have h := drainFrom_count send msgs 0 v
    have hz : (((drain send msgs).attempted.filter send).count v) = 0 := by
      rw [List.count_eq_zero]
      intro hvin
      have hp := List.of_mem_filter hvin
      rw [hs] at hp
      exact absurd hp (by simp)
    have hc : 1 ≤ msgs.count v := List.one_le_count_iff.mpr hm
    rw [← List.one_le_count_iff]
    unfold drain at hz ⊢
    omega

/-- C2 counterexample: with every send succeeding, the drain over
`["a", "b"]` attempts only `"a"`; the pending entry `"b"` is never attempted
in that pass (it survives to the next cycle), refuting "attempts to resend
every pending entry". -/
theorem drain_skips_entry_cex :
    (drain (fun _ => true) ["a", "b"]).attempted = ["a"]
  ∧ (drain (fun _ => true) ["a", "b"]).backlog = ["b"] := by
  constructor <;> simp [drain, drainFrom]

/-- C2 witness: conservation and fail-remains at a concrete backlog. -/
theorem drain_count_conservation_witness :
    ((drain (fun s => s == "a") ["a", "x"]).backlog.count "a")
      + (((drain (fun s => s == "a") ["a", "x"]).attempted.filter (fun s => s == "a")).count "a")
      = (["a", "x"] : List String).count "a"
  ∧ "x" ∈ (drain (fun s => s == "a") ["a", "x"]).backlog :=
  ⟨drain_count_conservation.1 _ _ _, drain_count_conservation.2 (fun s => s == "a") ["a", "x"] "x" (by simp) (by decide)⟩

/-- Dropping more elements yields a subset. -/
theorem drop_subset_drop (l : List String) {m n : Nat} (h : m ≤ n) : l.drop n ⊆ l.drop m := by
  have he : l.drop n = (l.drop m).drop (n - m) := by
    rw [List.drop_drop]
    congr 1
    omega
  rw [he]
  exact List.drop_subset _ _

/-- After erasing one element, everything from position `i + 1` on was
already at position `i` or later before the erase. -/
theorem erase_drop_succ_subset (l : List String) (m : String) (i : Nat) :
    (l.erase m).drop (i + 1) ⊆ l.drop i := by
  by_cases hm : m ∈ l
  · obtain ⟨l₁, l₂, hml₁, hdec, herase⟩ := List.exists_erase_eq hm
    rw [herase, hdec]
    intro x hx
    rw [List.drop_append_eq_append_drop] at hx ⊢
    rcases List.mem_append.mp hx with hx | hx
    · exact List.mem_append.mpr (Or.inl (drop_subset_drop l₁ (Nat.le_succ i) hx))
    · refine List.mem_append.mpr (Or.inr ?_)
      have h1 : l₂.drop (i + 1 - l₁.length) ⊆ l₂.drop (i - l₁.length) :=
        drop_subset_drop l₂ (by omega)
      have h2 : l₂.drop (i - l₁.length) ⊆ (m :: l₂).drop (i - l₁.length) := by
        cases hk : i - l₁.length with
        | zero =>
            simp only [List.drop_zero]
            exact List.subset_cons_self _ _
        | succ k =>
            rw [List.drop_succ_cons]
            exact drop_subset_drop l₂ (Nat.le_succ k)
      exact h2 (h1 hx)
  · rw [List.erase_of_not_mem hm]
    exact drop_subset_drop l (Nat.le_succ i)

/-- An entry strictly before the iterator position whose text does not occur
at or after it is never attempted by the rest of the pass and stays in the
backlog. -/
theorem drainFrom_preserved (send : String → Bool) (msgs : List String) (i : Nat) (b : String)
    (hmem : b ∈ msgs) (hdrop : b ∉ msgs.drop i) :
    b ∉ (drainFrom send msgs i).attempted ∧ b ∈ (drainFrom send msgs i).backlog := by
  revert hmem hdrop
  induction msgs, i using drainFrom.induct send with
  | case1 msgs i h hsend ih =>
    intro hmem hdrop
    have hcons : msgs.drop i = msgs[i] :: msgs.drop (i + 1) := List.drop_eq_getElem_cons h
    have hne : b ≠ msgs[i] := by
      intro hb
      exact hdrop (by rw [hcons, hb]; exact List.mem_cons_self _ _)
    have hmem' : b ∈ msgs.erase msgs[i] := (List.mem_erase_of_ne hne).mpr hmem
    have hdrop' : b ∉ (msgs.erase msgs[i]).drop (i + 1) :=
      fun hb => hdrop (erase_drop_succ_subset msgs msgs[i] i hb)
    have hr := ih hmem' hdrop'
    rw [drainFrom]
    simp only [h, dif_pos, hsend, if_pos]
    refine ⟨?_, hr.2⟩
    simp only [List.mem_cons, not_or]
    exact ⟨hne, hr.1⟩
  | case2 msgs i h hsend ih =>
    intro hmem hdrop
    have hcons : msgs.drop i = msgs[i] :: msgs.drop (i + 1) := List.drop_eq_getElem_cons h
    have hne : b ≠ msgs[i] := by
      intro hb
      exact hdrop (by rw [hcons, hb]; exact List.mem_cons_self _ _)
    have hdrop' : b ∉ msgs.drop (i + 1) := by
      intro hb
      exact hdrop (by rw [hcons]; exact List.mem_cons_of_mem _ hb)
    have hr := ih hmem hdrop'
    rw [drainFrom]
    have hb : send msgs[i] = false := by simpa using hsend
    simp only [h, dif_pos, hb, Bool.false_eq_true, if_false]
    refine ⟨?_, hr.2⟩
    simp only [List.mem_cons, not_or]
    exact ⟨hne, hr.1⟩
  | case3 msgs i h =>
    intro hmem hdrop
    rw [drainFrom]
    simp only [h, dif_neg]
    exact ⟨List.not_mem_nil b, hmem⟩

/-- While every fetched entry fails to send, the iterator walks forward
attempting each entry and the list is unchanged. -/
theorem drainFrom_failing_walk (send : String → Bool) (p : List String) :
    ∀ (msgs : List String) (i : Nat),
      msgs.drop i = p ++ msgs.drop (i + p.length) →
      (∀ x ∈ p, send x = false) →
      drainFrom send msgs i =
        ⟨(drainFrom send msgs (i + p.length)).backlog,
         p ++ (drainFrom send msgs (i + p.length)).attempted⟩ := by
  induction p with
  | nil =>
      intro msgs i _ _
      simp only [List.length_nil, Nat.add_zero, List.nil_append]
  | cons x p' ih =>
      intro msgs i hseg hfail
      have hlt : i < msgs.length := by
        by_contra hge
        rw [show msgs.drop i = [] from List.drop_eq_nil_of_le (by omega)] at hseg
        exact List.cons_ne_nil _ _ hseg.symm
      have hcons : msgs.drop i = msgs[i] :: msgs.drop (i + 1) := List.drop_eq_getElem_cons hlt
      rw [hcons] at hseg
      have hx : msgs[i] = x := by
        injection hseg with h1 _
      have htail : msgs.drop (i + 1) = p' ++ msgs.drop ((i + 1) + p'.length) := by
        have h2 := (List.cons.injEq _ _ _ _).mp hseg |>.2
        have harg : i + (x :: p').length = i + 1 + p'.length := by
          simp only [List.length_cons]
          omega
        rw [h2, harg]
        rfl
      have hsendx : send x = false := hfail x (List.mem_cons_self _ _)
      have hrec := ih msgs (i + 1) htail (fun y hy => hfail y (List.mem_cons_of_mem _ hy))
      have harith : i + 1 + p'.length = i + (x :: p').length := by
        simp only [List.length_cons]
        omega
      rw [drainFrom]
      simp only [hlt, dif_pos, hx, hsendx, Bool.false_eq_true, if_false, hrec, harith]
      simp

/-- C10: in a drain pass over `p ++ a :: b :: s` where every entry of the
prefix `p` fails to send and `a` sends successfully (so `a` is removed
mid-iteration), the entry `b` immediately following the removed one is never
attempted in that pass and remains in the backlog, pending for a later
cycle.  The text `b` is assumed distinct from `a` and from the other entries
so that "attempted" identifies the entry uniquely. -/
theorem drain_removal_skips_successor (send : String → Bool) (p s : List String) (a b : String)
    (hp : ∀ x ∈ p, send x = false) (ha : send a = true) (hba : b ≠ a)
    (hbp : b ∉ p) (hbs : b ∉ s) :
    b ∉ (drain send (p ++ a :: b :: s)).attempted
  ∧ b ∈ (drain send (p ++ a :: b :: s)).backlog := by
  have hap : a ∉ p := by
    intro hap
    have hcontra := hp a hap
    rw [ha] at hcontra
    exact absurd hcontra (by simp)
  have hdropP : (p ++ a :: b :: s).drop p.length = a :: b :: s := List.drop_left p _
  have hseg : (p ++ a :: b :: s).drop 0 = p ++ (p ++ a :: b :: s).drop (0 + p.length) := by
    rw [List.drop_zero, Nat.zero_add, hdropP]
  have hwalk := drainFrom_failing_walk send p (p ++ a :: b :: s) 0 hseg hp
  have hlt : p.length < (p ++ a :: b :: s).length := by
    simp
  have hconsP := List.drop_eq_getElem_cons hlt
  rw [hdropP] at hconsP
  have hgetP : (p ++ a :: b :: s)[p.length] = a := by
    injection hconsP with h1 _
    exact h1.symm
  have herase : (p ++ a :: b :: s).erase a = p ++ b :: s := by
    rw [List.erase_append, if_neg hap, List.erase_cons_head]
  have hstep : drainFrom send (p ++ a :: b :: s) p.length =
      ⟨(drainFrom send (p ++ b :: s) (p.length + 1)).backlog,
       a :: (drainFrom send (p ++ b :: s) (p.length + 1)).attempted⟩ := by
    rw [drainFrom]
    simp only [hlt, dif_pos, hgetP, ha, if_pos, herase]
  have hdropBS : (p ++ b :: s).drop (p.length + 1) = s := by
    rw [List.drop_append_eq_append_drop, List.drop_eq_nil_of_le (by omega)]
    simp
  have hpres := drainFrom_preserved send (p ++ b :: s) (p.length + 1) b
    (by simp) (by rw [hdropBS]; exact hbs)
  constructor
  · rw [drain, hwalk]
    simp only [Nat.zero_add, hstep, List.mem_append, List.mem_cons, not_or]
    exact ⟨hbp, hba, hpres.1⟩
  · rw [drain, hwalk]
    simp only [Nat.zero_add, hstep]
    exact hpres.2

/-- C10 witness: in `["p", "a", "b", "s"]` where only `"a"` sends, `"b"` is
skipped and remains. -/
theorem drain_removal_skips_successor_witness :
    "b" ∉ (drain (fun v => v == "a") (["p"] ++ "a" :: "b" :: ["s"])).attempted
  ∧ "b" ∈ (drain (fun v => v == "a") (["p"] ++ "a" :: "b" :: ["s"])).backlog :=
  drain_removal_skips_successor (fun v => v == "a") ["p"] ["s"] "a" "b"
    (by decide) (by decide) (by decide) (by decide) (by decide)

/-- C1 (amended): in a failing cycle whose wrapped text equals the last sent
error text and no more than 5000 seconds have elapsed, the dedup gate
suppresses the direct send (the cycle's sends are exactly the processing
sends followed by the drain attempts, with no direct send in between, and
the dedup state is unchanged); if the text differs or more than 5000 seconds
have elapsed, the direct send is attempted again.  The suppressed text is
still appended to the backlog, so the drain pass may deliver it anyway. -/
theorem dedup_gate_direct_send (env : CycleEnv) (st : BotState) (e : PyErr) (ps : List String)
    (herr : runTry env.outcome = (Except.error e, ps)) :
    (st.lastErrorMessage = some (wrapError e) →
     env.now - st.lastErrorTime ≤ RETRY_PERIOD_ERROR_TIME →
       (mainStep env st).2 =
         ps ++ (drain env.sendOk (st.errorMessages ++ [e.msg, wrapError e])).attempted
       ∧ (mainStep env st).1.lastErrorMessage = st.lastErrorMessage
       ∧ (mainStep env st).1.lastErrorTime = st.lastErrorTime)
  ∧ ((st.lastErrorMessage ≠ some (wrapError e) ∨
      env.now - st.lastErrorTime > RETRY_PERIOD_ERROR_TIME) →
       (mainStep env st).2 =
         ps ++ [wrapError e]
           ++ (drain env.sendOk (st.errorMessages ++ [e.msg, wrapError e])).attempted) := by
  constructor
  · intro hm hle
    have hg : dedupGate st (wrapError e) env.now = false := by
      unfold dedupGate
      rw [hm]
      simp only [bne_self_eq_false, Bool.false_or, decide_eq_false_iff_not]
      omega
    simp only [mainStep, herr, hg, Bool.false_eq_true, if_false]
    exact ⟨trivial, trivial, trivial⟩
  · intro hor
    have hg : dedupGate st (wrapError e) env.now = true := by
      unfold dedupGate
      rcases hor with h | h
      · have hb : (st.lastErrorMessage != some (wrapError e)) = true := bne_iff_ne.mpr h
        rw [hb, Bool.true_or]
      · have hb : decide (env.now - st.lastErrorTime > RETRY_PERIOD_ERROR_TIME) = true :=
          decide_eq_true h
        rw [hb, Bool.or_true]
    simp only [mainStep, herr, hg, if_true]
    by_cases hs : env.sendOk (wrapError e) = true
    · simp [hs]
    · simp [hs]

/-- C1 witness: a suppressed second identical error within the window, and a
direct send when the last error text differs. -/
theorem dedup_gate_direct_send_witness :
    ((mainStep ⟨HttpOutcome.transportError "x", fun _ => true, 100⟩
        ⟨PyVal.int 0, some (wrapError (PyErr.apiError (error_api_request ++ " x"))), 50, []⟩).2 =
      [] ++ (drain (fun _ => true)
        ([] ++ [(PyErr.apiError (error_api_request ++ " x")).msg,
                wrapError (PyErr.apiError (error_api_request ++ " x"))])).attempted
     ∧ (mainStep ⟨HttpOutcome.transportError "x", fun _ => true, 100⟩
        ⟨PyVal.int 0, some (wrapError (PyErr.apiError (error_api_request ++ " x"))), 50, []⟩).1.lastErrorMessage =
        some (wrapError (PyErr.apiError (error_api_request ++ " x")))
     ∧ (mainStep ⟨HttpOutcome.transportError "x", fun _ => true, 100⟩
        ⟨PyVal.int 0, some (wrapError (PyErr.apiError (error_api_request ++ " x"))), 50, []⟩).1.lastErrorTime = 50)
  ∧ ((mainStep ⟨HttpOutcome.transportError "x", fun _ => true, 100⟩
        ⟨PyVal.int 0, Option.none, 0, []⟩).2 =
      [] ++ [wrapError (PyErr.apiError (error_api_request ++ " x"))]
        ++ (drain (fun _ => true)
          ([] ++ [(PyErr.apiError (error_api_request ++ " x")).msg,
                  wrapError (PyErr.apiError (error_api_request ++ " x"))])).attempted) :=
  ⟨(dedup_gate_direct_send ⟨HttpOutcome.transportError "x", fun _ => true, 100⟩
      ⟨PyVal.int 0, some (wrapError (PyErr.apiError (error_api_request ++ " x"))), 50, []⟩
      (PyErr.apiError (error_api_request ++ " x")) [] rfl).1 rfl (by decide),
   (dedup_gate_direct_send ⟨HttpOutcome.transportError "x", fun _ => true, 100⟩
      ⟨PyVal.int 0, Option.none, 0, []⟩
      (PyErr.apiError (error_api_request ++ " x")) [] rfl).2
     (Or.inl (fun h => Option.noConfusion h))⟩

/-- C1 counterexample: two consecutive cycles failing with the identical
error 100 seconds apart, every send succeeding.  The claim says only the
first cycle's message is delivered and the second is suppressed (logged
only); in fact the second cycle delivers the identical wrapped text twice —
the suppressed message was appended to the backlog and the drain pass sends
it (the first cycle's leftover copy is delivered as well). -/
theorem dedup_suppressed_text_redelivered_cex :
    ((mainStep ⟨HttpOutcome.transportError "boom", fun _ => true, 200⟩
       (mainStep ⟨HttpOutcome.transportError "boom", fun _ => true, 100⟩
         ⟨PyVal.int 0, Option.none, 0, []⟩).1).2).count
      (wrapError (PyErr.apiError (error_api_request ++ " boom"))) = 2 := by
  simp [mainStep, runTry, get_api_answer, wrapError, dedupGate, drain, drainFrom,
    PyErr.msg, PyErr.toText, error_api_request, RETRY_PERIOD_ERROR_TIME, List.erase,
    List.count_cons]

/-- C9 (amended): the wrapped text is appended to the backlog
unconditionally (the final backlog is the drain of the old backlog plus the
component message and the wrapped message, whatever the dedup gate and the
direct send did — in particular a successful direct send does not remove
it); and when the wrapped message is actually reached by the drain (here: the
backlog was empty, the component message fails to send, the wrapped one
sends), the same text is delivered a second time by the drain pass of the
same cycle. -/
theorem wrapped_error_backlog_fate (env : CycleEnv) (st : BotState) (e : PyErr) (ps : List String)
    (herr : runTry env.outcome = (Except.error e, ps)) :
    ((mainStep env st).1.errorMessages =
       (drain env.sendOk (st.errorMessages ++ [e.msg, wrapError e])).backlog)
  ∧ (st.errorMessages = [] →
     dedupGate st (wrapError e) env.now = true →
     env.sendOk (wrapError e) = true →
     env.sendOk e.msg = false →
       (mainStep env st).2 = ps ++ [wrapError e] ++ [e.msg, wrapError e]) := by
  constructor
  · by_cases hg : dedupGate st (wrapError e) env.now = true
    · by_cases hs : env.sendOk (wrapError e) = true
      · simp [mainStep, herr, hg, hs]
      · simp [mainStep, herr, hg, hs]
    · simp [mainStep, herr, hg]
  · intro hemp hg hw hraw
    have hne : e.msg ≠ wrapError e := by
      intro hh
      rw [hh, hw] at hraw
      exact absurd hraw (by simp)
    have hbe : (e.msg == wrapError e) = false := beq_eq_false_iff_ne.mpr hne
    have hatt : (drain env.sendOk ([] ++ [e.msg, wrapError e])).attempted =
        [e.msg, wrapError e] := by
      simp [drain, drainFrom, hraw, hw, List.erase_cons, hbe]
    simp only [mainStep, herr, hg, if_true, hw, hemp]
    rw [hatt]

/-- C9 counterexample: a failing cycle with empty prior backlog where every
send succeeds.  The drain sends the component-level message, and removing it
skips the wrapped message, so the wrapped text is delivered only once (by
the direct send) in that cycle — not "a second time by the drain pass of the
same cycle" — and remains in the backlog. -/
theorem wrapped_error_not_redelivered_cex :
    ((mainStep ⟨HttpOutcome.transportError "boom", fun _ => true, 100⟩
        ⟨PyVal.int 0, Option.none, 0, []⟩).2).count
      (wrapError (PyErr.apiError (error_api_request ++ " boom"))) = 1
  ∧ wrapError (PyErr.apiError (error_api_request ++ " boom")) ∈
      (mainStep ⟨HttpOutcome.transportError "boom", fun _ => true, 100⟩
        ⟨PyVal.int 0, Option.none, 0, []⟩).1.errorMessages := by
  constructor <;>
    simp [mainStep, runTry, get_api_answer, wrapError, dedupGate, drain, drainFrom,
      PyErr.msg, PyErr.toText, error_api_request, RETRY_PERIOD_ERROR_TIME, List.erase,
      List.count_cons]

/-- C9 witness: with an empty backlog, a failing component send and a
successful wrapped send, the wrapped text is sent directly and again by the
drain. -/
theorem wrapped_error_backlog_fate_witness :
    ((mainStep ⟨HttpOutcome.transportError "boom",
        (fun s => s == wrapError (PyErr.apiError (error_api_request ++ " boom"))), 100⟩
        ⟨PyVal.int 0, Option.none, 0, []⟩).1.errorMessages =
      (drain (fun s => s == wrapError (PyErr.apiError (error_api_request ++ " boom")))
        ([] ++ [(PyErr.apiError (error_api_request ++ " boom")).msg,
                wrapError (PyErr.apiError (error_api_request ++ " boom"))])).backlog)
  ∧ ((mainStep ⟨HttpOutcome.transportError "boom",
        (fun s => s == wrapError (PyErr.apiError (error_api_request ++ " boom"))), 100⟩
        ⟨PyVal.int 0, Option.none, 0, []⟩).2 =
      [] ++ [wrapError (PyErr.apiError (error_api_request ++ " boom"))]
        ++ [(PyErr.apiError (error_api_request ++ " boom")).msg,
            wrapError (PyErr.apiError (error_api_request ++ " boom"))]) := by
  constructor
  · exact (wrapped_error_backlog_fate ⟨HttpOutcome.transportError "boom",
      (fun s => s == wrapError (PyErr.apiError (error_api_request ++ " boom"))), 100⟩
      ⟨PyVal.int 0, Option.none, 0, []⟩ (PyErr.apiError (error_api_request ++ " boom")) [] rfl).1
  · exact (wrapped_error_backlog_fate ⟨HttpOutcome.transportError "boom",
      (fun s => s == wrapError (PyErr.apiError (error_api_request ++ " boom"))), 100⟩
      ⟨PyVal.int 0, Option.none, 0, []⟩ (PyErr.apiError (error_api_request ++ " boom")) [] rfl).2
      rfl (by decide) (by decide) (by decide)
